import Mathlib

/-!
Shallow embedding of the conversational-context core of the
`e-commerce-chat-ai` repository: domain entities (`Product`, `ChatMessage`,
`ChatContext`), the chat-repository read used for context, the application
service `ChatService.process_message`, the request DTO validation, and the
Gemini adapter's fallback policy.  Python strings are Lean `String`s, Python
`float` prices are `ℚ`, Python ints are `Int`/`Nat`, raised exceptions are
`Except String`.
-/

namespace ECommerceChat

/-- Python whitespace characters relevant to `str.strip()`. -/
def pySpaceChars : List Char := [' ', '\t', '\n', '\r', '\x0b', '\x0c']

def isPySpace (c : Char) : Bool := pySpaceChars.contains c

/-- Embedding of Python `s.strip()`: drop whitespace from both ends. -/
def pyStrip (s : String) : String :=
  String.mk (((s.toList.dropWhile isPySpace).reverse.dropWhile isPySpace).reverse)

/-- Embedding of Python `s.lower()` (ASCII case mapping). -/
def pyLower (s : String) : String :=
  String.mk (s.toList.map Char.toLower)

/-- Python truthiness test `not s or not s.strip()`: blank string. -/
def pyBlank (s : String) : Bool := pyStrip s = ""

/-- Embedding of the Python slice `xs[-k:]` for a natural `k`:
`k = 0` gives `xs[0:] = xs`; `k > 0` gives the last `min (xs.length) k`
elements in order. -/
def pySliceLastNeg (xs : List α) (k : Nat) : List α :=
  if k = 0 then xs else xs.drop (xs.length - k)

/-- Embedding of Python `sub in s` on already-lowered strings. -/
def pyContains (s sub : String) : Bool :=
  s.toList.tails.any (fun t => sub.toList.isPrefixOf t)

/-- Fields of the `Product` dataclass in `src/domain/entities.py`. -/
structure Product where
  id : Option Nat
  name : String
  brand : String
  category : String
  size : String
  color : String
  price : ℚ
  stock : Int
  description : String
deriving Repr, DecidableEq

/-- Validations of `Product.__post_init__`: construction fails on blank name,
non-positive price, or negative stock. -/
def mkProduct (id : Option Nat) (name brand category size color : String)
    (price : ℚ) (stock : Int) (description : String) : Except String Product :=
  if pyBlank name then .error "El nombre del producto no puede estar vacío."
  else if price ≤ 0 then .error "El precio debe ser mayor a 0."
  else if stock < 0 then .error "El stock no puede ser negativo."
  else .ok ⟨id, name, brand, category, size, color, price, stock, description⟩

/-- Embedding of `Product.is_available`: `stock > 0`. -/
def Product.is_available (p : Product) : Bool := p.stock > 0

/-- Embedding of `Product.reduce_stock`: fails on `quantity ≤ 0` or `quantity > stock`,
otherwise subtracts. -/
def Product.reduce_stock (p : Product) (quantity : Int) : Except String Product :=
  if quantity ≤ 0 then .error "La cantidad a reducir debe ser positiva."
  else if quantity > p.stock then .error "No hay stock suficiente para la operación."
  else .ok { p with stock := p.stock - quantity }

/-- Embedding of `Product.increase_stock`: fails on `quantity ≤ 0`, otherwise adds. -/
def Product.increase_stock (p : Product) (quantity : Int) : Except String Product :=
  if quantity ≤ 0 then .error "La cantidad a aumentar debe ser positiva."
  else .ok { p with stock := p.stock + quantity }

/-- Fields of the `ChatMessage` dataclass in `src/domain/entities.py`
(timestamps as naturals). -/
structure ChatMessage where
  id : Option Nat
  session_id : String
  role : String
  message : String
  timestamp : Nat
deriving Repr, DecidableEq

/-- Validations of `ChatMessage.__post_init__`: role must be exactly `user` or
`assistant`, message and session_id must be non-blank. -/
def mkChatMessage (id : Option Nat) (session_id role message : String)
    (timestamp : Nat) : Except String ChatMessage :=
  if role ≠ "user" ∧ role ≠ "assistant" then
    .error "El rol debe ser user o assistant."
  else if pyBlank message then .error "El mensaje no puede estar vacío."
  else if pyBlank session_id then .error "El session_id no puede estar vacío."
  else .ok ⟨id, session_id, role, message, timestamp⟩

/-- Fields of the `ChatContext` dataclass in `src/domain/entities.py`;
`max_messages` defaults to 6 as in the source. -/
structure ChatContext where
  messages : List ChatMessage
  max_messages : Nat := 6
deriving Repr, DecidableEq

/-- Embedding of `ChatContext.get_recent_messages`:
`self.messages[-self.max_messages:]`. -/
def ChatContext.get_recent_messages (ctx : ChatContext) : List ChatMessage :=
  pySliceLastNeg ctx.messages ctx.max_messages

/-- The `role_map` literal of `ChatContext.format_for_prompt`. -/
def roleMap (r : String) : Option String :=
  if r = "user" then some "user"
  else if r = "assistant" then some "assistant"
  else if r = "usuario" then some "user"
  else if r = "asistente" then some "assistant"
  else none

/-- The role normalization of the formatting loop:
`(m.role or "").strip().lower()` mapped through `role_map`, defaulting to
`"user"` for unknown roles. -/
def normalizedRole (raw : String) : String :=
  (roleMap (pyLower (pyStrip raw))).getD "user"

/-- One iteration of the formatting loop: normalized role, then
`f"{role}: {m.message}"`. -/
def formatLine (m : ChatMessage) : String :=
  normalizedRole m.role ++ ": " ++ m.message

/-- The windowing step of `format_for_prompt`:
`self.messages[-self.max_messages:] if self.max_messages else self.messages`. -/
def ChatContext.windowed (ctx : ChatContext) : List ChatMessage :=
  if ctx.max_messages ≠ 0 then pySliceLastNeg ctx.messages ctx.max_messages
  else ctx.messages

/-- Embedding of `ChatContext.format_for_prompt`: window, render each message
to a line, join with newlines. -/
def ChatContext.format_for_prompt (ctx : ChatContext) : String :=
  String.intercalate "\n" (ctx.windowed.map formatLine)

/-- Fields of `ChatMessageRequestDTO` in `src/application/dtos.py`. -/
structure ChatMessageRequestDTO where
  session_id : String
  message : String
deriving Repr, DecidableEq

/-- Pydantic validation of `ChatMessageRequestDTO`: both `session_id` and
`message` must be non-blank; validation happens at the API boundary, before
any service code runs. -/
def mkChatMessageRequestDTO (session_id message : String) :
    Except String ChatMessageRequestDTO :=
  if pyBlank session_id then .error "El session_id no puede estar vacío."
  else if pyBlank message then .error "El mensaje no puede estar vacío."
  else .ok ⟨session_id, message⟩

/-- Fields of `ChatMessageResponseDTO` in `src/application/dtos.py`. -/
structure ChatMessageResponseDTO where
  session_id : String
  user_message : String
  assistant_message : String
  timestamp : Nat
deriving Repr, DecidableEq

/-- Embedding of `SQLChatRepository.get_recent_messages`: filter the store by session,
order chronologically descending, take `count`, reverse back to
chronological order.  The store is modelled as a chronological append-only
list, so descending-limit-reverse is take-last on the filtered list. -/
def repoGetRecentMessages (store : List ChatMessage) (session_id : String)
    (count : Nat) : List ChatMessage :=
  (((store.filter (fun m => m.session_id = session_id)).reverse.take count)).reverse

/-- The transcript `ChatService.process_message` builds for a turn:
`ChatContext(messages=recent, max_messages=6).format_for_prompt()` over the
repository's six most recent session messages. -/
def turnContext (store : List ChatMessage) (session_id : String) : String :=
  ChatContext.format_for_prompt ⟨repoGetRecentMessages store session_id 6, 6⟩

/-- Embedding of `ChatService.process_message`.  The AI collaborator is a function from
(user message, products, formatted context) to assistant text or a raised
failure; the conversation store is threaded explicitly, and the three clock
reads are the parameters `tUser`, `tAsst`, `tResp`.  Returns the outcome
together with the store after the turn (so a failure's persistence effects
are visible). -/
def process_message
    (ai : String → List Product → String → Except String String)
    (products : List Product) (store : List ChatMessage)
    (req : ChatMessageRequestDTO) (tUser tAsst tResp : Nat) :
    Except String ChatMessageResponseDTO × List ChatMessage :=
  let context := turnContext store req.session_id
  match ai req.message products context with
  | .error e => (.error e, store)
  | .ok assistant_text =>
    match mkChatMessage none req.session_id "user" req.message tUser with
    | .error e => (.error e, store)
    | .ok user_msg =>
      let store1 := store ++ [user_msg]
      match mkChatMessage none req.session_id "assistant" assistant_text tAsst with
      | .error e => (.error e, store1)
      | .ok assistant_msg =>
        (.ok ⟨req.session_id, req.message, assistant_text, tResp⟩,
         store1 ++ [assistant_msg])

/-- The `POST /chat` boundary: validate the inbound payload into a
`ChatMessageRequestDTO` (pydantic), then run `ChatService.process_message`.
Malformed input fails at validation, before the service or any collaborator
runs. -/
def submitMessage
    (ai : String → List Product → String → Except String String)
    (products : List Product) (store : List ChatMessage)
    (session_id message : String) (tUser tAsst tResp : Nat) :
    Except String ChatMessageResponseDTO × List ChatMessage :=
  match mkChatMessageRequestDTO session_id message with
  | .error e => (.error e, store)
  | .ok req => process_message ai products store req tUser tAsst tResp

/-- Adapter state of `GeminiService`: the configured model name and the active
`GenerativeModel` instance, identified by the model identifier it was built
from. -/
structure GeminiService where
  model_name : String
  model : String
deriving Repr, DecidableEq

/-- The fixed fallback model identifier of `GeminiService.generate_response`. -/
def fallbackModel : String := "gemini-1.5-flash"

/-- The fixed placeholder sentence returned instead of blank text. -/
def placeholderText : String := "No pude generar una respuesta en este momento."

/-- The test `"not found" in str(e).lower() or "unsupported" in str(e).lower()`. -/
def isModelNotFoundErr (e : String) : Bool :=
  pyContains (pyLower e) "not found" || pyContains (pyLower e) "unsupported"

/-- Embedding of
`text.strip() if isinstance(text, str) and text.strip() else <placeholder>`. -/
def textOrPlaceholder (text : String) : String :=
  if pyBlank text then placeholderText else pyStrip text

/-- Embedding of `GeminiService.generate_response` (the `_call` closure),
where the provider is
a function from (model identifier, prompt) to response text or a raised
failure.  Returns the outcome and the adapter state after the call: on a
missing/unsupported-model failure of the primary, `self.model` is reassigned
to the fallback and the call retried once with the same prompt; a failure of
that retry propagates; any other primary failure propagates unretried. -/
def generate_response (provider : String → String → Except String String)
    (s : GeminiService) (prompt : String) :
    Except String String × GeminiService :=
  match provider s.model prompt with
  | .ok text => (.ok (textOrPlaceholder text), s)
  | .error e =>
    if isModelNotFoundErr e then
      let s' := { s with model := fallbackModel }
      match provider s'.model prompt with
      | .ok text2 => (.ok (textOrPlaceholder text2), s')
      | .error e2 => (.error e2, s')
    else (.error e, s)

/-- Instrumentation of `generate_response`: the (model identifier, prompt)
pairs the underlying provider is invoked with, in order. -/
def generateCalls (provider : String → String → Except String String)
    (s : GeminiService) (prompt : String) : List (String × String) :=
  match provider s.model prompt with
  | .ok _ => [(s.model, prompt)]
  | .error e =>
    if isModelNotFoundErr e then [(s.model, prompt), (fallbackModel, prompt)]
    else [(s.model, prompt)]

/-- Discriminator for raised failures of the embedding. -/
def isErr : Except String α → Bool
  | .error _ => true
  | .ok _ => false

/-! Helper lemmas shared by the claim theorems. -/

theorem takeLast_reverse_eq (l : List α) (k : Nat) :
    (l.reverse.take k).reverse = l.drop (l.length - k) := by
  rw [List.take_reverse, List.reverse_reverse]

theorem repoGetRecentMessages_eq_drop (store : List ChatMessage)
    (sid : String) (k : Nat) :
    repoGetRecentMessages store sid k
      = (store.filter (fun m => m.session_id = sid)).drop
          ((store.filter (fun m => m.session_id = sid)).length - k) := by
  unfold repoGetRecentMessages
  exact takeLast_reverse_eq _ _

theorem repoGetRecentMessages_length_le (store : List ChatMessage)
    (sid : String) (k : Nat) :
    (repoGetRecentMessages store sid k).length ≤ k := by
  unfold repoGetRecentMessages
  simp [List.length_take]

theorem repoGetRecentMessages_session (store : List ChatMessage)
    (sid : String) (k : Nat) :
    ∀ m ∈ repoGetRecentMessages store sid k, m.session_id = sid := by
  intro m hm
  unfold repoGetRecentMessages at hm
  rw [List.mem_reverse] at hm
  have hm' := List.mem_of_mem_take hm
  rw [List.mem_reverse] at hm'
  have hf := List.of_mem_filter hm'
  simpa using hf

/-- A concrete valid chat message used in concrete evaluations. -/
def cexMsg : ChatMessage := ⟨none, "s1", "user", "hola", 0⟩

/-- A concrete list of seven valid chat messages of one session. -/
def sevenMsgs : List ChatMessage :=
  (List.range 7).map (fun i => ⟨none, "s1", "user", "hola", i⟩)

/-- C3 (amended): for every list of messages and every window bound K ≥ 1,
`ChatContext.get_recent_messages` with `max_messages = K` returns exactly
`min(N, K)` messages, equal to the last `min(N, K)` elements of the input in
their original order. -/
theorem get_recent_messages_positive_bound (msgs : List ChatMessage)
    (K : Nat) (hK : 1 ≤ K) :
    (ChatContext.get_recent_messages ⟨msgs, K⟩).length = min msgs.length K ∧
    ChatContext.get_recent_messages ⟨msgs, K⟩
      = msgs.drop (msgs.length - K) := by
  have hK0 : K ≠ 0 := by omega
  have hval : ChatContext.get_recent_messages ⟨msgs, K⟩
      = msgs.drop (msgs.length - K) := by
    show pySliceLastNeg msgs K = _
    unfold pySliceLastNeg
    rw [if_neg hK0]
  refine ⟨?_, hval⟩
  rw [hval, List.length_drop]
  omega

/-- C3 (counterexample): with window bound K = 0 and one stored message,
`get_recent_messages` returns the whole list (the Python slice `xs[-0:]` is
`xs`), not `min(1, 0) = 0` messages as the claim states. -/
theorem get_recent_messages_zero_bound_cex :
    ChatContext.get_recent_messages ⟨[cexMsg], 0⟩ = [cexMsg] ∧
    (ChatContext.get_recent_messages ⟨[cexMsg], 0⟩).length ≠ min 1 0 := by
  exact ⟨rfl, by decide⟩

/-- Witness for `get_recent_messages_positive_bound` at `K = 6` over
`sevenMsgs`. -/
theorem get_recent_messages_positive_bound_witness :
    (ChatContext.get_recent_messages ⟨sevenMsgs, 6⟩).length = min sevenMsgs.length 6 ∧
    ChatContext.get_recent_messages ⟨sevenMsgs, 6⟩
      = sevenMsgs.drop (sevenMsgs.length - 6) :=
  get_recent_messages_positive_bound sevenMsgs 6 (by decide)

/-- C5 (amended): with window bound `max_messages = 0`, both
`get_recent_messages` and `format_for_prompt` operate on the full sequence
unbounded; an unset `max_messages` defaults to 6, a bounded window. -/
theorem zero_bound_unbounded (msgs : List ChatMessage) :
    ChatContext.get_recent_messages ⟨msgs, 0⟩ = msgs ∧
    ChatContext.format_for_prompt ⟨msgs, 0⟩
      = String.intercalate "\n" (msgs.map formatLine) ∧
    ({ messages := msgs } : ChatContext).max_messages = 6 := by
  refine ⟨rfl, ?_, rfl⟩
  unfold ChatContext.format_for_prompt ChatContext.windowed
  simp

/-- C5 (counterexample): a `ChatContext` built with `max_messages` unset
defaults to a window of 6, so with seven stored messages
`get_recent_messages` drops the oldest one instead of returning the full
sequence. -/
theorem unset_bound_cex :
    sevenMsgs.length = 7 ∧
    ChatContext.get_recent_messages { messages := sevenMsgs } ≠ sevenMsgs ∧
    (ChatContext.get_recent_messages { messages := sevenMsgs }).length = 6 := by
  decide

/-- C4: `format_for_prompt` returns one rendered entry per windowed message
joined by newlines, in chronological (input) order, each entry equal to the
normalized role, then `": "`, then the message text; any role whose
stripped-and-lowered form is none of the recognized spellings renders as
`user`; the empty input list yields the empty string. -/
theorem format_for_prompt_renders_lines (ctx : ChatContext) :
    ctx.format_for_prompt
      = String.intercalate "\n"
          (ctx.windowed.map (fun m => normalizedRole m.role ++ ": " ++ m.message)) ∧
    (∀ raw : String,
        pyLower (pyStrip raw) ≠ "user" → pyLower (pyStrip raw) ≠ "assistant" →
        pyLower (pyStrip raw) ≠ "usuario" → pyLower (pyStrip raw) ≠ "asistente" →
        normalizedRole raw = "user") ∧
    ChatContext.format_for_prompt ⟨[], ctx.max_messages⟩ = "" := by
  refine ⟨rfl, ?_, ?_⟩
  · intro raw h1 h2 h3 h4
    unfold normalizedRole roleMap
    rw [if_neg h1, if_neg h2, if_neg h3, if_neg h4]
    rfl
  · unfold ChatContext.format_for_prompt ChatContext.windowed pySliceLastNeg
    by_cases h : ctx.max_messages = 0 <;> simp [h] <;> rfl

/-- Witness for `format_for_prompt_renders_lines`: an unrecognized role
renders as `user`, and a two-message context renders one line per message. -/
theorem format_for_prompt_renders_lines_witness :
    normalizedRole "bot" = "user" ∧
    ChatContext.format_for_prompt
        ⟨[⟨none, "s1", "user", "hola", 0⟩,
          ⟨none, "s1", "assistant", "buenas", 1⟩], 6⟩
      = "user: hola" ++ "\n" ++ "assistant: buenas" := by
  constructor
  · exact (format_for_prompt_renders_lines ⟨[], 6⟩).2.1 "bot"
      (by decide) (by decide) (by decide) (by decide)
  · have h := (format_for_prompt_renders_lines
        ⟨[⟨none, "s1", "user", "hola", 0⟩,
          ⟨none, "s1", "assistant", "buenas", 1⟩], 6⟩).1
    rw [h]
    rfl

/-- C10: role normalization in `format_for_prompt` is case- and
surrounding-whitespace-insensitive: a message whose role strips and lowers
to `user` or `usuario` renders with canonical role `user`, and one that
strips and lowers to `assistant` or `asistente` renders with canonical role
`assistant`. -/
theorem role_normalization_insensitive (id : Option Nat)
    (sid role text : String) (ts : Nat) :
    ((pyLower (pyStrip role) = "user" ∨ pyLower (pyStrip role) = "usuario") →
      ChatContext.format_for_prompt ⟨[⟨id, sid, role, text, ts⟩], 6⟩
        = "user" ++ ": " ++ text) ∧
    ((pyLower (pyStrip role) = "assistant" ∨ pyLower (pyStrip role) = "asistente") →
      ChatContext.format_for_prompt ⟨[⟨id, sid, role, text, ts⟩], 6⟩
        = "assistant" ++ ": " ++ text) := by
  have hfmt : ChatContext.format_for_prompt ⟨[⟨id, sid, role, text, ts⟩], 6⟩
      = normalizedRole role ++ ": " ++ text := by
    unfold ChatContext.format_for_prompt ChatContext.windowed pySliceLastNeg
    simp [formatLine, String.intercalate]
    rfl
  constructor
  · rintro (h | h) <;> rw [hfmt] <;> unfold normalizedRole roleMap <;> simp [h]
  · rintro (h | h) <;> rw [hfmt] <;> unfold normalizedRole roleMap <;> simp [h]

/-- Witness for `role_normalization_insensitive` at the roles `User`,
`␣ASSISTANT␣` and `Usuario`. -/
theorem role_normalization_insensitive_witness :
    ChatContext.format_for_prompt ⟨[⟨none, "s1", "User", "hola", 0⟩], 6⟩
      = "user" ++ ": " ++ "hola" ∧
    ChatContext.format_for_prompt ⟨[⟨none, "s1", " ASSISTANT ", "hola", 0⟩], 6⟩
      = "assistant" ++ ": " ++ "hola" ∧
    ChatContext.format_for_prompt ⟨[⟨none, "s1", "Usuario", "hola", 0⟩], 6⟩
      = "user" ++ ": " ++ "hola" :=
  ⟨(role_normalization_insensitive none "s1" "User" "hola" 0).1 (Or.inl (by decide)),
   (role_normalization_insensitive none "s1" " ASSISTANT " "hola" 0).2 (Or.inl (by decide)),
   (role_normalization_insensitive none "s1" "Usuario" "hola" 0).1 (Or.inr (by decide))⟩

/-- The concrete catalog item of the construction example. -/
def pegasusProduct : Product :=
  ⟨none, "Pegasus", "Nike", "Running", "42", "Blanco", 120, 5, ""⟩

/-- C9: `Product` construction fails for any price ≤ 0, any stock < 0, or a
blank name; constructing with price 120.0, stock 5, name `Pegasus` succeeds
and `is_available()` is true; `reduce_stock` on stock 5 fails for quantity 6
and succeeds for quantity 2 leaving stock 3; `reduce_stock` fails for every
quantity ≤ 0 or greater than current stock and `increase_stock` fails for
every quantity ≤ 0, failures producing no updated product (stock unchanged). -/
theorem product_invariants :
    (∀ (id : Option Nat) (name brand cat size color desc : String)
        (price : ℚ) (stock : Int), price ≤ 0 →
        isErr (mkProduct id name brand cat size color price stock desc) = true) ∧
    (∀ (id : Option Nat) (name brand cat size color desc : String)
        (price : ℚ) (stock : Int), stock < 0 →
        isErr (mkProduct id name brand cat size color price stock desc) = true) ∧
    (∀ (id : Option Nat) (name brand cat size color desc : String)
        (price : ℚ) (stock : Int), pyBlank name = true →
        isErr (mkProduct id name brand cat size color price stock desc) = true) ∧
    (mkProduct none "Pegasus" "Nike" "Running" "42" "Blanco" 120 5 ""
      = .ok pegasusProduct ∧ pegasusProduct.is_available = true) ∧
    (∀ p : Product, p.stock = 5 →
        isErr (p.reduce_stock 6) = true ∧
        p.reduce_stock 2 = .ok { p with stock := 3 }) ∧
    (∀ (p : Product) (q : Int), q ≤ 0 ∨ q > p.stock →
        isErr (p.reduce_stock q) = true) ∧
    (∀ (p : Product) (q : Int), q ≤ 0 → isErr (p.increase_stock q) = true) := by
  refine ⟨?_, ?_, ?_, ⟨by rfl, by decide⟩, ?_, ?_, ?_⟩
  · intro id name brand cat size color desc price stock hp
    unfold mkProduct
    by_cases hn : pyBlank name = true <;> simp [hn, hp, isErr]
  · intro id name brand cat size color desc price stock hs
    unfold mkProduct
    by_cases hn : pyBlank name = true
    · simp [hn, isErr]
    · by_cases hp : price ≤ 0 <;> simp [hn, hp, hs, isErr]
  · intro id name brand cat size color desc price stock hn
    simp [mkProduct, hn, isErr]
  · intro p hp
    constructor
    · have h6 : ¬ (6 : Int) ≤ 0 := by norm_num
      have hgt : (6 : Int) > p.stock := by rw [hp]; norm_num
      simp [Product.reduce_stock, h6, hgt, isErr]
    · have h2 : ¬ (2 : Int) ≤ 0 := by norm_num
      have hle : ¬ (2 : Int) > p.stock := by rw [hp]; norm_num
      have hst : p.stock - 2 = 3 := by rw [hp]; norm_num
      simp [Product.reduce_stock, h2, hle, hst]
  · rintro p q (hq | hq)
    · simp [Product.reduce_stock, hq, isErr]
    · by_cases hq0 : q ≤ 0 <;> simp [Product.reduce_stock, hq0, hq, isErr]
  · intro p q hq
    simp [Product.increase_stock, hq, isErr]

/-- Witness for `product_invariants` at the concrete inputs of the claim:
price 0, stock −1 and a blank name each fail; reducing 5 by 6 fails;
reducing 5 by 2 leaves 3; increasing by 0 fails. -/
theorem product_invariants_witness :
    isErr (mkProduct none "Pegasus" "Nike" "Running" "42" "Blanco" 0 5 "") = true ∧
    isErr (mkProduct none "Pegasus" "Nike" "Running" "42" "Blanco" 120 (-1) "") = true ∧
    isErr (mkProduct none "   " "Nike" "Running" "42" "Blanco" 120 5 "") = true ∧
    isErr (pegasusProduct.reduce_stock 6) = true ∧
    pegasusProduct.reduce_stock 2 = .ok { pegasusProduct with stock := 3 } ∧
    isErr (pegasusProduct.increase_stock 0) = true :=
  ⟨product_invariants.1 none "Pegasus" "Nike" "Running" "42" "Blanco" "" 0 5
      (by norm_num),
   product_invariants.2.1 none "Pegasus" "Nike" "Running" "42" "Blanco" "" 120 (-1)
      (by norm_num),
   product_invariants.2.2.1 none "   " "Nike" "Running" "42" "Blanco" "" 120 5
      (by decide),
   (product_invariants.2.2.2.2.1 pegasusProduct rfl).1,
   (product_invariants.2.2.2.2.1 pegasusProduct rfl).2,
   product_invariants.2.2.2.2.2.2 pegasusProduct 0 (by norm_num)⟩

/-- A concrete one-message store for the service witnesses. -/
def demoStore : List ChatMessage := [⟨none, "s1", "assistant", "Bienvenido", 0⟩]

/-- A stub responder that always answers a fixed text. -/
def aiOk : String → List Product → String → Except String String :=
  fun _ _ _ => .ok "Claro, tenemos Pegasus."

/-- A stub responder that always raises. -/
def aiBoom : String → List Product → String → Except String String :=
  fun _ _ _ => .error "boom"

/-- C1: for a valid request (non-blank session id, non-blank message) whose
responder call returns non-blank text `T`, `process_message` completes,
appends exactly the user message then the assistant message (both with the
request session id) to the store, and returns a result whose
`assistant_message` is `T`; the history consulted for context is the
repository window of at most the six most recent messages of that session. -/
theorem process_message_appends_two
    (ai : String → List Product → String → Except String String)
    (products : List Product) (store : List ChatMessage)
    (req : ChatMessageRequestDTO) (tUser tAsst tResp : Nat) (T : String)
    (hsid : pyBlank req.session_id = false)
    (hmsg : pyBlank req.message = false)
    (hT : pyBlank T = false)
    (hai : ai req.message products (turnContext store req.session_id) = .ok T) :
    process_message ai products store req tUser tAsst tResp
      = (.ok ⟨req.session_id, req.message, T, tResp⟩,
         store ++ [⟨none, req.session_id, "user", req.message, tUser⟩,
                   ⟨none, req.session_id, "assistant", T, tAsst⟩]) ∧
    (repoGetRecentMessages store req.session_id 6).length ≤ 6 ∧
    (∀ m ∈ repoGetRecentMessages store req.session_id 6,
        m.session_id = req.session_id) ∧
    repoGetRecentMessages store req.session_id 6
      = pySliceLastNeg (store.filter (fun m => m.session_id = req.session_id)) 6 := by
  refine ⟨?_, repoGetRecentMessages_length_le store req.session_id 6,
          repoGetRecentMessages_session store req.session_id 6, ?_⟩
  · have hu : mkChatMessage none req.session_id "user" req.message tUser
        = .ok ⟨none, req.session_id, "user", req.message, tUser⟩ := by
      simp [mkChatMessage, hmsg, hsid]
    have ha : mkChatMessage none req.session_id "assistant" T tAsst
        = .ok ⟨none, req.session_id, "assistant", T, tAsst⟩ := by
      simp [mkChatMessage, hT, hsid]
    simp [process_message, hai, hu, ha]
  · rw [repoGetRecentMessages_eq_drop]
    unfold pySliceLastNeg
    rw [if_neg (by decide)]

/-- Witness for `process_message_appends_two` on a concrete store, request
and responder. -/
theorem process_message_appends_two_witness :
    process_message aiOk [] demoStore ⟨"s1", "hola"⟩ 1 2 3
      = (.ok ⟨"s1", "hola", "Claro, tenemos Pegasus.", 3⟩,
         demoStore ++ [⟨none, "s1", "user", "hola", 1⟩,
                       ⟨none, "s1", "assistant", "Claro, tenemos Pegasus.", 2⟩]) :=
  (process_message_appends_two aiOk [] demoStore ⟨"s1", "hola"⟩ 1 2 3
    "Claro, tenemos Pegasus." (by decide) (by decide) (by decide) rfl).1

/-- C2: when the responder raises, `process_message` propagates that failure
and the conversation store is exactly what it was when the turn started —
no user-only orphan entry is appended. -/
theorem process_message_ai_failure
    (ai : String → List Product → String → Except String String)
    (products : List Product) (store : List ChatMessage)
    (req : ChatMessageRequestDTO) (tUser tAsst tResp : Nat) (e : String)
    (hai : ai req.message products (turnContext store req.session_id) = .error e) :
    process_message ai products store req tUser tAsst tResp = (.error e, store) := by
  simp [process_message, hai]

/-- Witness for `process_message_ai_failure` on a concrete store and a
responder that raises. -/
theorem process_message_ai_failure_witness :
    process_message aiBoom [] demoStore ⟨"s1", "hola"⟩ 1 2 3
      = (.error "boom", demoStore) :=
  process_message_ai_failure aiBoom [] demoStore ⟨"s1", "hola"⟩ 1 2 3 "boom" rfl

/-- C8: an inbound submit-message input with a blank session identifier or a
blank message fails pydantic validation, and the turn returns that
validation error with the store unchanged, uniformly in the responder, the
catalog and the store — no collaborator result influences the outcome. -/
theorem submit_invalid_input (sid msg : String)
    (h : pyBlank sid = true ∨ pyBlank msg = true) :
    ∃ e, mkChatMessageRequestDTO sid msg = .error e ∧
      ∀ (ai : String → List Product → String → Except String String)
        (products : List Product) (store : List ChatMessage)
        (tUser tAsst tResp : Nat),
        submitMessage ai products store sid msg tUser tAsst tResp
          = (.error e, store) := by
  by_cases hs : pyBlank sid = true
  · refine ⟨"El session_id no puede estar vacío.", ?_, ?_⟩
    · simp [mkChatMessageRequestDTO, hs]
    · intro ai products store tUser tAsst tResp
      simp [submitMessage, mkChatMessageRequestDTO, hs]
  · have hm : pyBlank msg = true := by
      rcases h with h | h
      · exact absurd h hs
      · exact h
    refine ⟨"El mensaje no puede estar vacío.", ?_, ?_⟩
    · simp [mkChatMessageRequestDTO, hs, hm]
    · intro ai products store tUser tAsst tResp
      simp [submitMessage, mkChatMessageRequestDTO, hs, hm]

/-- Witness for `submit_invalid_input`: a blank session identifier fails the
turn before any collaborator result matters, leaving the store unchanged. -/
theorem submit_invalid_input_witness :
    submitMessage aiOk [] demoStore "  " "hola" 1 2 3
      = (.error "El session_id no puede estar vacío.", demoStore) := by
  obtain ⟨e, he, hall⟩ := submit_invalid_input "  " "hola" (Or.inl (by decide))
  have hcomp : mkChatMessageRequestDTO "  " "hola"
      = .error "El session_id no puede estar vacío." := by rfl
  rw [hcomp] at he
  injection he with he'
  rw [he']
  exact hall aiOk [] demoStore 1 2 3

/-- The adapter state with the default primary model active. -/
def primarySvc : GeminiService := ⟨"gemini-2.5-flash", "gemini-2.5-flash"⟩

/-- A provider for which the primary model is missing and the fallback model
fails with a quota error. -/
def cexProvider : String → String → Except String String :=
  fun model _ =>
    if model = "gemini-2.5-flash" then .error "model not found"
    else .error "quota exceeded"

/-- A provider for which the primary model is missing and the fallback model
answers. -/
def stickyProvider : String → String → Except String String :=
  fun model _ =>
    if model = "gemini-2.5-flash" then .error "model not found"
    else .ok "Hola"

/-- C6 (amended): on a missing/unsupported-model failure of the primary, the
adapter retries exactly once against the fixed fallback identifier with the
same prompt; blank or whitespace-only text from whichever attempt succeeded
is replaced by the fixed non-empty placeholder sentence; a failure of the
retry itself propagates to the caller (it is not converted to the
placeholder); any other failure class of the primary is not retried and
propagates. -/
theorem generate_response_fallback_policy
    (provider : String → String → Except String String)
    (s : GeminiService) (prompt : String) :
    (∀ t, provider s.model prompt = .ok t →
        generate_response provider s prompt
          = (.ok (if pyBlank t then placeholderText else pyStrip t), s)) ∧
    (∀ e, provider s.model prompt = .error e → isModelNotFoundErr e = false →
        generate_response provider s prompt = (.error e, s) ∧
        generateCalls provider s prompt = [(s.model, prompt)]) ∧
    (∀ e, provider s.model prompt = .error e → isModelNotFoundErr e = true →
        generateCalls provider s prompt
          = [(s.model, prompt), (fallbackModel, prompt)] ∧
        (∀ t2, provider fallbackModel prompt = .ok t2 →
            generate_response provider s prompt
              = (.ok (if pyBlank t2 then placeholderText else pyStrip t2),
                 { s with model := fallbackModel })) ∧
        (∀ e2, provider fallbackModel prompt = .error e2 →
            generate_response provider s prompt
              = (.error e2, { s with model := fallbackModel }))) ∧
    pyBlank placeholderText = false := by
  refine ⟨?_, ?_, ?_, by decide⟩
  · intro t ht
    simp [generate_response, ht, textOrPlaceholder]
  · intro e he hnf
    constructor
    · simp [generate_response, he, hnf]
    · simp [generateCalls, he, hnf]
  · intro e he hf
    refine ⟨by simp [generateCalls, he, hf], ?_, ?_⟩
    · intro t2 ht2
      simp [generate_response, he, hf, ht2, textOrPlaceholder]
    · intro e2 he2
      simp [generate_response, he, hf, he2]

/-- C6 (counterexample): with the primary model missing and the fallback
attempt failing with a quota error, `generate_response` propagates the
quota failure instead of returning the placeholder sentence, contrary to
the claim that a failing retry yields the placeholder. -/
theorem generate_response_retry_failure_cex :
    (generate_response cexProvider primarySvc "hola").1
      = .error "quota exceeded" ∧
    (generate_response cexProvider primarySvc "hola").1
      ≠ .ok placeholderText := by
  refine ⟨rfl, ?_⟩
  intro h
  rw [show (generate_response cexProvider primarySvc "hola").1
      = Except.error "quota exceeded" from rfl] at h
  exact Except.noConfusion h

/-- Witness for `generate_response_fallback_policy`: a primary quota error
is not retried and propagates. -/
theorem generate_response_fallback_policy_witness :
    generate_response (fun _ _ => .error "quota exceeded") primarySvc "hola"
      = (.error "quota exceeded", primarySvc) ∧
    generateCalls (fun _ _ => .error "quota exceeded") primarySvc "hola"
      = [(primarySvc.model, "hola")] :=
  (generate_response_fallback_policy (fun _ _ => .error "quota exceeded")
    primarySvc "hola").2.1 "quota exceeded" rfl (by decide)

/-- C7 helper: from an adapter state whose active model is the fallback,
every provider invocation of a call names only the fallback identifier, and
the state after the call still has the fallback active. -/
theorem generateCalls_fallback_only
    (provider : String → String → Except String String)
    (s : GeminiService) (prompt : String) (hs : s.model = fallbackModel) :
    (∀ c ∈ generateCalls provider s prompt, c.1 = fallbackModel) ∧
    (generate_response provider s prompt).2.model = fallbackModel := by
  constructor
  · intro c hc
    rcases hcall : provider s.model prompt with e | t
    · by_cases he : isModelNotFoundErr e = true
      · simp [generateCalls, hcall, he] at hc
        rcases hc with hc | hc
        · rw [hc]
          exact hs
        · rw [hc]
      · simp [generateCalls, hcall, he] at hc
        rw [hc]
        exact hs
    · simp [generateCalls, hcall] at hc
      rw [hc]
      exact hs
  · rcases hcall : provider s.model prompt with e | t
    · by_cases he : isModelNotFoundErr e = true
      · rcases hcall2 : provider fallbackModel prompt with e2 | t2 <;>
          simp [generate_response, hcall, he, hcall2]
      · simp [generate_response, hcall, he]
        exact hs
    · simp [generate_response, hcall]
      exact hs

/-- C7: once a call triggers the fallback (a missing/unsupported-model
failure of the primary), the adapter state has the fallback identifier as
its active model, every provider invocation of every subsequent call on
that state names only the fallback identifier, and every subsequent call
leaves the fallback active — the adapter never invokes the original
primary model again within its lifetime. -/
theorem sticky_fallback
    (provider : String → String → Except String String)
    (s : GeminiService) (prompt e : String)
    (hp : provider s.model prompt = .error e)
    (he : isModelNotFoundErr e = true) :
    (generate_response provider s prompt).2.model = fallbackModel ∧
    (∀ (q : String → String → Except String String) (prompt' : String),
        ∀ c ∈ generateCalls q (generate_response provider s prompt).2 prompt',
          c.1 = fallbackModel) ∧
    (∀ (q : String → String → Except String String) (prompt' : String),
        (generate_response q (generate_response provider s prompt).2 prompt').2.model
          = fallbackModel) := by
  have hstate : (generate_response provider s prompt).2.model = fallbackModel := by
    rcases hcall2 : provider fallbackModel prompt with e2 | t2 <;>
      simp [generate_response, hp, he, hcall2]
  refine ⟨hstate, ?_, ?_⟩
  · intro q prompt'
    exact (generateCalls_fallback_only q _ prompt' hstate).1
  · intro q prompt'
    exact (generateCalls_fallback_only q _ prompt' hstate).2

/-- Witness for `sticky_fallback` with a provider whose primary model is
missing: after the fallback triggers, the active model is the fallback
identifier. -/
theorem sticky_fallback_witness :
    (generate_response stickyProvider primarySvc "hola").2.model = fallbackModel :=
  (sticky_fallback stickyProvider primarySvc "hola" "model not found"
    rfl (by decide)).1

end ECommerceChat
